import Mathlib

/-!
Shallow embedding of `threejs-instances-gpu` (TypeScript / three.js prototype).

The repository has two variants of `src/js/index.ts` (the spec's §9 treats them
as alternative configurations of one system):
* the *sphere* variant: 15012 instances, per-instance offsets sampled from the
  flattened vertex pool of a loaded reference model, constant orientation
  quaternions `(.5,.5,.5,.5)` normalized;
* the *triangle* variant: 5000 instances, random offsets, random orientations,
  and a frame loop that reads `scene.children[3]` unconditionally.

Numeric values are embedded as exact rationals (`ℚ`); `Math.random()` is
embedded as a stream `rnd : ℕ → ℚ` (call number ↦ result) constrained to
`[0, 1)` where a claim needs it; `Math.sin` is an opaque parameter.  Fallible
JavaScript dereferences (property access on `undefined`, which throws a
`TypeError` at run time) are embedded as `Option`, with `none` the defined
out-of-range failure.
-/

/-- A 3-component vector of rationals (three.js `Vector3` / raw xyz triples). -/
structure Vec3 where
  x : ℚ
  y : ℚ
  z : ℚ
deriving DecidableEq, Repr

/-- A 4-component vector of rationals (three.js `Vector4`, used for RGBA colors
and orientation quaternions). -/
structure Vec4 where
  x : ℚ
  y : ℚ
  z : ℚ
  w : ℚ
deriving DecidableEq, Repr

/-- `Vector4.lengthSq`: the squared Euclidean length `x²+y²+z²+w²`. -/
def vec4LengthSq (v : Vec4) : ℚ :=
  v.x * v.x + v.y * v.y + v.z * v.z + v.w * v.w

/-- three.js `Vector4.normalize` divides every component by the Euclidean
length `sqrt (lengthSq v)`.  The square root is not rational in general, so the
embedding takes the (unique nonnegative) exact square root `len` of
`vec4LengthSq v` as a certified argument: callers supply `len` together with a
proof obligation `len * len = vec4LengthSq v ∧ 0 ≤ len` in the theorems using
it.  For the one vector this program normalizes on the modelled path,
`(.5,.5,.5,.5)`, the squared length is `1` and `len = 1`. -/
def vec4NormalizeOn (v : Vec4) (len : ℚ) : Vec4 :=
  ⟨v.x / len, v.y / len, v.z / len, v.w / len⟩

/-- Identifier of one of the two cameras exported by the cameras module. -/
inductive CameraId where
  | dev
  | main
deriving DecidableEq, Repr

/-- A perspective camera, as the program uses it: intrinsic parameters
(`fov`, `aspect`, `near`, `far`), position, an optional `lookAt` target, and
`proj`, the `(fov, aspect, near, far)` tuple last baked into the projection
matrix by `updateProjectionMatrix` (the matrix is a pure function of that
tuple, so recording the tuple records the matrix). -/
structure Camera where
  fov : ℚ
  aspect : ℚ
  near : ℚ
  far : ℚ
  position : Vec3
  lookTarget : Option Vec3
  proj : ℚ × ℚ × ℚ × ℚ
deriving DecidableEq, Repr

/-- The projection parameters a call to `updateProjectionMatrix` would bake in
now. -/
def projParams (c : Camera) : ℚ × ℚ × ℚ × ℚ :=
  (c.fov, c.aspect, c.near, c.far)

/-- `camera.updateProjectionMatrix()`: recompute the projection matrix from the
camera's current parameters. -/
def updateProjectionMatrix (c : Camera) : Camera :=
  { c with proj := projParams c }

namespace Cameras

/-- `const fov = 50` (cameras module). -/
def fovConst : ℚ := 50

/-- `const near = 1` (cameras module). -/
def nearConst : ℚ := 1

/-- `const far = 10` (cameras module). -/
def farConst : ℚ := 10

/-- `new PerspectiveCamera(fov, ratio, near, far)` where
`ratio = window.innerWidth / window.innerHeight`; three.js initializes the
position to the origin, no `lookAt` target yet, and computes the projection
matrix from the constructor arguments. -/
def mkCamera (w h : ℚ) : Camera :=
  { fov := fovConst
    aspect := w / h
    near := nearConst
    far := farConst
    position := ⟨0, 0, 0⟩
    lookTarget := none
    proj := (fovConst, w / h, nearConst, farConst) }

/-- `zoom(camera, value)`: `camera.position.set(1*value, 0.75*value, 1*value)`,
then `camera.position.z = 2`, then `camera.lookAt(new Vector3())` (the origin). -/
def zoom (camera : Camera) (value : ℚ) : Camera :=
  let c := { camera with position := ⟨1 * value, 3/4 * value, 1 * value⟩ }
  let c := { c with position := { c.position with z := 2 } }
  { c with lookTarget := some ⟨0, 0, 0⟩ }

/-- `export const dev = new PerspectiveCamera(...)`, then `zoom(dev, 8)`. -/
def dev (w h : ℚ) : Camera := zoom (mkCamera w h) 8

/-- `export const main = new PerspectiveCamera(...)`, then `zoom(main, 3)`. -/
def main (w h : ℚ) : Camera := zoom (mkCamera w h) 3

end Cameras

/-- A pixel rectangle `(left, bottom, width, height)` handed to the renderer. -/
structure Rect where
  left : ℚ
  bottom : ℚ
  width : ℚ
  height : ℚ
deriving DecidableEq, Repr

/-- One render pass as issued by `WebGLPrototype.render`: camera, the viewport
rectangle, the scissor rectangle, and the clear color. -/
structure RenderPass where
  cam : CameraId
  viewport : Rect
  scissor : Rect
  clearColor : ℕ
deriving DecidableEq, Repr

/-- `WebGLPrototype.render(camera, left, bottom, width, height)`: the four
fractional coordinates are multiplied by the window dimensions
(`left *= window.innerWidth; bottom *= window.innerHeight;
width *= window.innerWidth; height *= window.innerHeight`), the result is set
as both viewport and scissor, the clear color is set to `0x121212`, and the
scene is drawn from the given camera. -/
def render (w h : ℚ) (camera : CameraId) (left bottom width height : ℚ) :
    RenderPass :=
  let left := left * w
  let bottom := bottom * h
  let width := width * w
  let height := height * h
  { cam := camera
    viewport := ⟨left, bottom, width, height⟩
    scissor := ⟨left, bottom, width, height⟩
    clearColor := 0x121212 }

/-!
## Particle-field builder (sphere variant of `objectInit`)

The sphere variant flattens the loaded reference model's per-child
`geometry.attributes.position.array` buffers into a pool `targetOffsets` of
`{x, y, z}` sample points, then fills the instanced attribute arrays in a loop
`for (let i = 0; i < instances; i++)`.  Per iteration the only `Math.random()`
consumers are the four color channels, so call number `4*i + k` is channel `k`
of instance `i`.
-/

/-- The per-instance attribute arrays plus material state produced by the
sphere variant's `objectInit` (the shared triangle `positions` come from the
external `SphereGeometry` tessellation, kept as the flat list the
`box.faces.forEach` loop pushed). -/
structure ParticleMesh where
  positions : List ℚ
  offsets : List ℚ
  colors : List ℚ
  orientationsStart : List ℚ
  orientationsEnd : List ℚ
  uniformTime : ℚ
  uniformSineTime : ℚ
deriving DecidableEq, Repr

/-- One iteration step of the pool-flattening loop
`for (let i = 0; i < child.geometry.attributes.position.array.length; i += 3)`:
it pushes `{x: arr[i], y: arr[i+1], z: arr[i+2]}`.  The guard checks only the
first index, so the reads at `i+1` and `i+2` can fall past the end of the
array; the embedding makes every read strict (`List.getElem?`), and `none` marks an
out-of-bounds read. -/
def flattenLoop (arr : List ℚ) (i : ℕ) : Option (List Vec3) :=
  if i < arr.length then
    arr[i]?.bind fun x =>
      arr[i + 1]?.bind fun y =>
        arr[i + 2]?.bind fun z =>
          (flattenLoop arr (i + 3)).map (fun rest => ⟨x, y, z⟩ :: rest)
  else
    some []
termination_by arr.length - i
decreasing_by simp_wf; omega

/-- Flattening one child's position buffer, starting the loop at `i = 0`. -/
def flattenChild (arr : List ℚ) : Option (List Vec3) :=
  flattenLoop arr 0

/-- `this.targetObject.children.forEach(child => ...)`: every child's position
buffer is flattened and the results accumulate into one `targetOffsets` pool. -/
def flattenPool (childArrays : List (List ℚ)) : Option (List Vec3) :=
  (childArrays.mapM flattenChild).map List.flatten

/-- The offsets loop body: `offsets.push(targetOffsets[i].x * 0.01, ...)`.  In
JavaScript `targetOffsets[i]` is `undefined` once `i ≥ targetOffsets.length`
and the subsequent `.x` dereference throws a `TypeError`; the embedding reads
the pool with `List.getElem?` and propagates `none` as that failure. -/
def buildOffsetsLoop (pool : List Vec3) (i instances : ℕ) : Option (List ℚ) :=
  if i < instances then
    pool[i]?.bind fun p =>
      (buildOffsetsLoop pool (i + 1) instances).map
        (fun rest => p.x * (1/100) :: p.y * (1/100) :: p.z * (1/100) :: rest)
  else
    some []
termination_by instances - i

/-- The offset attribute array, built by the loop from `i = 0`. -/
def buildOffsets (pool : List Vec3) (instances : ℕ) : Option (List ℚ) :=
  buildOffsetsLoop pool 0 instances

/-- The colors loop body:
`colors.push(Math.random(), Math.random(), Math.random(), Math.random())`,
with `rnd n` the result of the `n`-th `Math.random()` call of the loop. -/
def buildColorsLoop (rnd : ℕ → ℚ) (i instances : ℕ) : List ℚ :=
  if i < instances then
    rnd (4*i) :: rnd (4*i + 1) :: rnd (4*i + 2) :: rnd (4*i + 3) ::
      buildColorsLoop rnd (i + 1) instances
  else
    []
termination_by instances - i

/-- The color attribute array, built by the loop from `i = 0`. -/
def buildColors (rnd : ℕ → ℚ) (instances : ℕ) : List ℚ :=
  buildColorsLoop rnd 0 instances

/-- The constant the sphere variant feeds to `vector.set(.5, .5, .5, .5)`. -/
def orientVecRaw : Vec4 := ⟨1/2, 1/2, 1/2, 1/2⟩

/-- The orientation written per instance: `vector.set(.5,.5,.5,.5)` followed by
`vector.normalize()`.  `vec4LengthSq orientVecRaw = 1`, so the exact Euclidean
length is `1` and the normalization divides by `1`. -/
def orientQuat : Vec4 := vec4NormalizeOn orientVecRaw 1

/-- The orientation loop body: both `orientationsStart` and `orientationsEnd`
receive `vector.x, vector.y, vector.z, vector.w` of the normalized constant
vector on every iteration. -/
def buildOrientationsLoop (i instances : ℕ) : List ℚ :=
  if i < instances then
    orientQuat.x :: orientQuat.y :: orientQuat.z :: orientQuat.w ::
      buildOrientationsLoop (i + 1) instances
  else
    []
termination_by instances - i

/-- Either orientation attribute array (start and end are built identically),
from `i = 0`. -/
def buildOrientations (instances : ℕ) : List ℚ :=
  buildOrientationsLoop 0 instances

/-- `const instances = 15012` (sphere variant). -/
def sphereInstances : ℕ := 15012

/-- The sphere variant's `objectInit`, given the flattened `targetOffsets`
pool, the instance count, the `Math.random()` stream, and the shared triangle
positions pushed from the external `SphereGeometry`.  It fills the instanced
attribute arrays and packages them with the `RawShaderMaterial` uniforms
`time: 1.0` and `sineTime: 1.0`; the offsets loop's pool indexing is the only
fallible step. -/
def objectInit (pool : List Vec3) (instances : ℕ) (rnd : ℕ → ℚ)
    (spherePositions : List ℚ) : Option ParticleMesh :=
  (buildOffsets pool instances).map fun offs =>
    { positions := spherePositions
      offsets := offs
      colors := buildColors rnd instances
      orientationsStart := buildOrientations instances
      orientationsEnd := buildOrientations instances
      uniformTime := 1
      uniformSineTime := 1 }

/-!
## Scene graph, startup, event handlers, frame loop
-/

/-- A node of the scene graph: the helpers and lights added in the constructor,
the loaded reference model, and the instanced particle mesh (with its
`rotation.y`). -/
inductive SceneNode where
  | gridHelper
  | axisHelper
  | light (name : String)
  | targetModel
  | particleMesh (m : ParticleMesh) (rotationY : ℚ)
deriving DecidableEq

/-- Side effects the handlers can request, recorded so theorems can state what
a handler does and does not initiate. -/
inductive Effect where
  | consoleWarn
  | consoleLog
  | startAssetLoad
  | startModelLoad
deriving DecidableEq, Repr

/-- The mutable application state the event handlers and the frame loop share:
the scene graph, the `debugCamera` flag, the two cameras, and the window
dimensions. -/
structure AppState where
  scene : List SceneNode
  debugCamera : Bool
  camDev : Camera
  camMain : Camera
  width : ℚ
  height : ℚ

/-- The scene contents after the constructor ran: `GridHelper` and `AxisHelper`
when `DEV_HELPERS` is set, then one node per entry of the lights module (both
`DEV_HELPERS` and the light set live outside `src`, so they stay parameters). -/
def startupScene (devHelpers : Bool) (lightNames : List String) :
    List SceneNode :=
  (if devHelpers then [SceneNode.gridHelper, SceneNode.axisHelper] else []) ++
    lightNames.map SceneNode.light

/-- `onAssetsError = (error) => { console.warn(error); }`: the catch handler of
the asset-manifest load only logs a warning — it touches no state and requests
no further load. -/
def onAssetsError (s : AppState) : AppState × List Effect :=
  (s, [Effect.consoleWarn])

/-- `onResize`: set both cameras' `aspect` to
`window.innerWidth / window.innerHeight`, call `updateProjectionMatrix()` on
both, and resize the renderer to the new window dimensions. -/
def onResize (s : AppState) (w h : ℚ) : AppState :=
  let dev := { s.camDev with aspect := w / h }
  let main := { s.camMain with aspect := w / h }
  let dev := updateProjectionMatrix dev
  let main := updateProjectionMatrix main
  { s with camDev := dev, camMain := main, width := w, height := h }

/-- A sequence of resize events (each carrying the new
`window.innerWidth`/`window.innerHeight`) handled in order by `onResize`. -/
def applyResizes (s : AppState) (events : List (ℚ × ℚ)) : AppState :=
  events.foldl (fun st e => onResize st e.1 e.2) s

/-- The render passes one call of `update` issues, common to both variants:
`if (flags.debugCamera) { render(dev, 0,0,1,1); render(main, 0,0.75,0.25,0.25) }
else { render(main, 0,0,1,1) }`. -/
def updatePasses (s : AppState) : List RenderPass :=
  if s.debugCamera then
    [render s.width s.height CameraId.dev 0 0 1 1,
     render s.width s.height CameraId.main 0 (3/4) (1/4) (1/4)]
  else
    [render s.width s.height CameraId.main 0 0 1 1]

/-- The sphere variant's `update`: the block mutating
`scene.children[scene.children.length - 1]` is commented out in this variant,
so a frame only reads state and issues the flag-dependent render passes; the
state is returned unchanged. -/
def sphereUpdate (s : AppState) : AppState × List RenderPass :=
  (s, updatePasses s)

/-- The triangle variant's `update`: it binds
`const object = scene.children[3]` and then unconditionally writes
`object.rotation.y`, `object.material.uniforms.time.value` and
`object.material.uniforms.sineTime.value` before rendering.  When index 3 is
out of range, `scene.children[3]` is `undefined` and `undefined.rotation`
throws; when the node there is a helper, light or plain model, it has no
shader-`uniforms` material and the `.time` dereference throws.  Both failures
are `none`.  `sin` stands for the opaque `Math.sin`, `time` for
`performance.now()`. -/
def triangleUpdate (sin : ℚ → ℚ) (s : AppState) (time : ℚ) :
    Option (AppState × List RenderPass) :=
  match s.scene[3]? with
  | some (SceneNode.particleMesh m _) =>
      let t := time * (5/1000)
      let m := { m with uniformTime := t, uniformSineTime := sin (t * (5/100)) }
      let s := { s with scene := s.scene.set 3 (SceneNode.particleMesh m (time * (5/10000))) }
      some (s, updatePasses s)
  | some _ => none
  | none => none

/-!
## Theorems
-/

/-- C6: a render pass converts its fractional viewport rectangle to pixels by
multiplying `left` and `width` by the window width and `bottom` and `height`
by the window height, applies the result as both viewport and scissor, and for
fractional `(0, 0.75, 0.25, 0.25)` against an 800×600 window yields the pixel
rectangle `(0, 450, 200, 150)`. -/
theorem render_fractional_viewport_to_pixels
    (w h l b wd ht : ℚ) (cam : CameraId) :
    (render w h cam l b wd ht).viewport = ⟨l * w, b * h, wd * w, ht * h⟩ ∧
    (render w h cam l b wd ht).scissor = (render w h cam l b wd ht).viewport ∧
    (render 800 600 cam 0 (3/4) (1/4) (1/4)).viewport = ⟨0, 450, 200, 150⟩ ∧
    (render 800 600 cam 0 (3/4) (1/4) (1/4)).scissor = ⟨0, 450, 200, 150⟩ := by
  refine ⟨rfl, rfl, ?_, ?_⟩ <;>
    · simp only [render, Rect.mk.injEq]
      norm_num

/-- C7: both cameras are constructed with field of view 50, near 1, far 10 and
aspect equal to the initial width/height ratio; `zoom` sets the position to the
scale factor times `(1, 0.75, 1)`, then overwrites Z with 2, then looks at the
origin; `dev` is zoomed by 8 and `main` by 3. -/
theorem cameras_intrinsics_and_placement (w h : ℚ) :
    (Cameras.dev w h).fov = 50 ∧ (Cameras.dev w h).near = 1 ∧
    (Cameras.dev w h).far = 10 ∧ (Cameras.dev w h).aspect = w / h ∧
    (Cameras.main w h).fov = 50 ∧ (Cameras.main w h).near = 1 ∧
    (Cameras.main w h).far = 10 ∧ (Cameras.main w h).aspect = w / h ∧
    (∀ c v, (Cameras.zoom c v).position = ⟨1 * v, 3/4 * v, 2⟩ ∧
      (Cameras.zoom c v).lookTarget = some ⟨0, 0, 0⟩) ∧
    (Cameras.dev w h).position = ⟨8, 6, 2⟩ ∧
    (Cameras.main w h).position = ⟨3, 9/4, 2⟩ ∧
    (Cameras.dev w h).lookTarget = some ⟨0, 0, 0⟩ ∧
    (Cameras.main w h).lookTarget = some ⟨0, 0, 0⟩ := by
  refine ⟨rfl, rfl, rfl, rfl, rfl, rfl, rfl, rfl, fun c v => ⟨rfl, rfl⟩, ?_, ?_, rfl, rfl⟩ <;>
    · simp only [Cameras.dev, Cameras.main, Cameras.zoom, Cameras.mkCamera, Vec3.mk.injEq]
      norm_num

/-- C3: with the debug flag false a frame issues exactly one render pass (main
camera, full viewport); with it true, exactly two (debug camera full viewport
first, then the main camera into the fractional rectangle
`(0, 0.75, 0.25, 0.25)`); so toggling the flag toggles the per-frame pass
count between 1 and 2. -/
theorem frame_render_pass_count (s : AppState) :
    (sphereUpdate { s with debugCamera := false }).2.length = 1 ∧
    (sphereUpdate { s with debugCamera := true }).2.length = 2 ∧
    (sphereUpdate { s with debugCamera := false }).2 =
      [render s.width s.height CameraId.main 0 0 1 1] ∧
    (sphereUpdate { s with debugCamera := true }).2 =
      [render s.width s.height CameraId.dev 0 0 1 1,
       render s.width s.height CameraId.main 0 (3/4) (1/4) (1/4)] := by
  simp [sphereUpdate, updatePasses]

/-- C4: when the asset-manifest load rejects, the handler only logs a warning:
the scene graph still holds exactly the startup lights and helpers (no
reference model, no particle mesh), and no further load is initiated. -/
theorem assets_error_leaves_startup_scene
    (dh : Bool) (lightNames : List String) (s : AppState)
    (hs : s.scene = startupScene dh lightNames) :
    (onAssetsError s).1.scene = startupScene dh lightNames ∧
    (∀ m r, SceneNode.particleMesh m r ∉ (onAssetsError s).1.scene) ∧
    SceneNode.targetModel ∉ (onAssetsError s).1.scene ∧
    (onAssetsError s).2 = [Effect.consoleWarn] ∧
    Effect.startAssetLoad ∉ (onAssetsError s).2 ∧
    Effect.startModelLoad ∉ (onAssetsError s).2 := by
  refine ⟨hs, ?_, ?_, rfl, by simp [onAssetsError], by simp [onAssetsError]⟩
  · intro m r hmem
    rw [onAssetsError] at hmem
    simp only at hmem
    rw [hs] at hmem
    simp only [startupScene, List.mem_append, List.mem_map] at hmem
    rcases hmem with hmem | ⟨nm, _, hmem⟩
    · split at hmem <;> simp_all
    · exact SceneNode.noConfusion hmem
  · intro hmem
    rw [onAssetsError] at hmem
    simp only at hmem
    rw [hs] at hmem
    simp only [startupScene, List.mem_append, List.mem_map] at hmem
    rcases hmem with hmem | ⟨nm, _, hmem⟩
    · split at hmem <;> simp_all
    · exact SceneNode.noConfusion hmem

/-- Closed witness for `assets_error_leaves_startup_scene` at a concrete
startup state. -/
theorem assets_error_leaves_startup_scene_check :
    (onAssetsError
        { scene := startupScene true ["ambient", "directional"]
          debugCamera := false
          camDev := Cameras.dev 800 600
          camMain := Cameras.main 800 600
          width := 800
          height := 600 }).1.scene = startupScene true ["ambient", "directional"] ∧
    (∀ m r, SceneNode.particleMesh m r ∉
      (onAssetsError
        { scene := startupScene true ["ambient", "directional"]
          debugCamera := false
          camDev := Cameras.dev 800 600
          camMain := Cameras.main 800 600
          width := 800
          height := 600 }).1.scene) ∧
    SceneNode.targetModel ∉
      (onAssetsError
        { scene := startupScene true ["ambient", "directional"]
          debugCamera := false
          camDev := Cameras.dev 800 600
          camMain := Cameras.main 800 600
          width := 800
          height := 600 }).1.scene ∧
    (onAssetsError
        { scene := startupScene true ["ambient", "directional"]
          debugCamera := false
          camDev := Cameras.dev 800 600
          camMain := Cameras.main 800 600
          width := 800
          height := 600 }).2 = [Effect.consoleWarn] ∧
    Effect.startAssetLoad ∉
      (onAssetsError
        { scene := startupScene true ["ambient", "directional"]
          debugCamera := false
          camDev := Cameras.dev 800 600
          camMain := Cameras.main 800 600
          width := 800
          height := 600 }).2 ∧
    Effect.startModelLoad ∉
      (onAssetsError
        { scene := startupScene true ["ambient", "directional"]
          debugCamera := false
          camDev := Cameras.dev 800 600
          camMain := Cameras.main 800 600
          width := 800
          height := 600 }).2 :=
  assets_error_leaves_startup_scene true ["ambient", "directional"] _ rfl

/-- C9: the triangle variant's frame loop dereferences `scene.children[3]`
unconditionally; on any frame run while the scene graph has fewer than four
children (in particular before the asset load resolved and the particle mesh
was added), the access is out of range and the update fails. -/
theorem triangle_update_fails_before_four_children
    (sin : ℚ → ℚ) (s : AppState) (time : ℚ) (h : s.scene.length < 4) :
    triangleUpdate sin s time = none := by
  have h3 : s.scene[3]? = none := List.getElem?_eq_none (by omega)
  rw [triangleUpdate, h3]

/-- Closed witness for `triangle_update_fails_before_four_children` at an
empty startup scene. -/
theorem triangle_update_fails_before_four_children_check :
    triangleUpdate (fun q => q)
      { scene := startupScene false []
        debugCamera := false
        camDev := Cameras.dev 800 600
        camMain := Cameras.main 800 600
        width := 800
        height := 600 } 0 = none :=
  triangle_update_fails_before_four_children (fun q => q) _ 0 (by decide)

/-- C5: after any nonempty sequence of resize events, both cameras' aspect
ratio equals the last event's width divided by its height, and both projection
matrices have been recomputed from the cameras' current parameters. -/
theorem resize_restores_aspect_invariant
    (s : AppState) (events : List (ℚ × ℚ)) (h : events ≠ []) :
    (applyResizes s events).camDev.aspect =
      (events.getLast h).1 / (events.getLast h).2 ∧
    (applyResizes s events).camMain.aspect =
      (events.getLast h).1 / (events.getLast h).2 ∧
    (applyResizes s events).camDev.proj =
      projParams (applyResizes s events).camDev ∧
    (applyResizes s events).camMain.proj =
      projParams (applyResizes s events).camMain ∧
    (applyResizes s events).width = (events.getLast h).1 ∧
    (applyResizes s events).height = (events.getLast h).2 := by
  rcases List.eq_nil_or_concat events with rfl | ⟨pre, e, rfl⟩
  · exact absurd rfl h
  · have hlast : (pre.concat e).getLast h = e := by
      simp [List.concat_eq_append, List.getLast_concat]
    have hfold : applyResizes s (pre.concat e) =
        onResize (applyResizes s pre) e.1 e.2 := by
      simp [applyResizes, List.concat_eq_append]
    rw [hlast, hfold]
    simp [onResize, updateProjectionMatrix, projParams]

/-- Closed witness for `resize_restores_aspect_invariant`: one 1024×768 resize
after an 800×600 startup. -/
theorem resize_restores_aspect_invariant_check :
    (applyResizes
        { scene := startupScene true []
          debugCamera := false
          camDev := Cameras.dev 800 600
          camMain := Cameras.main 800 600
          width := 800
          height := 600 } [(1024, 768)]).camDev.aspect =
      (([(1024, 768)] : List (ℚ × ℚ)).getLast (by decide)).1 /
        (([(1024, 768)] : List (ℚ × ℚ)).getLast (by decide)).2 ∧
    (applyResizes
        { scene := startupScene true []
          debugCamera := false
          camDev := Cameras.dev 800 600
          camMain := Cameras.main 800 600
          width := 800
          height := 600 } [(1024, 768)]).camMain.aspect =
      (([(1024, 768)] : List (ℚ × ℚ)).getLast (by decide)).1 /
        (([(1024, 768)] : List (ℚ × ℚ)).getLast (by decide)).2 ∧
    (applyResizes
        { scene := startupScene true []
          debugCamera := false
          camDev := Cameras.dev 800 600
          camMain := Cameras.main 800 600
          width := 800
          height := 600 } [(1024, 768)]).camDev.proj =
      projParams (applyResizes
        { scene := startupScene true []
          debugCamera := false
          camDev := Cameras.dev 800 600
          camMain := Cameras.main 800 600
          width := 800
          height := 600 } [(1024, 768)]).camDev ∧
    (applyResizes
        { scene := startupScene true []
          debugCamera := false
          camDev := Cameras.dev 800 600
          camMain := Cameras.main 800 600
          width := 800
          height := 600 } [(1024, 768)]).camMain.proj =
      projParams (applyResizes
        { scene := startupScene true []
          debugCamera := false
          camDev := Cameras.dev 800 600
          camMain := Cameras.main 800 600
          width := 800
          height := 600 } [(1024, 768)]).camMain ∧
    (applyResizes
        { scene := startupScene true []
          debugCamera := false
          camDev := Cameras.dev 800 600
          camMain := Cameras.main 800 600
          width := 800
          height := 600 } [(1024, 768)]).width =
      (([(1024, 768)] : List (ℚ × ℚ)).getLast (by decide)).1 ∧
    (applyResizes
        { scene := startupScene true []
          debugCamera := false
          camDev := Cameras.dev 800 600
          camMain := Cameras.main 800 600
          width := 800
          height := 600 } [(1024, 768)]).height =
      (([(1024, 768)] : List (ℚ × ℚ)).getLast (by decide)).2 :=
  resize_restores_aspect_invariant _ [(1024, 768)] (by decide)

/-- The stride-3 flattening loop succeeds (all reads in bounds) exactly when it
has already run past the array or the remaining length is a multiple of 3. -/
theorem flattenLoop_isSome (arr : List ℚ) :
    ∀ fuel i, arr.length - i ≤ fuel →
      ((flattenLoop arr i).isSome ↔
        (arr.length ≤ i ∨ (arr.length - i) % 3 = 0)) := by
  intro fuel
  induction fuel with
  | zero =>
    intro i hfuel
    rw [flattenLoop, if_neg (by omega)]
    simp only [Option.isSome_some, true_iff]
    omega
  | succ n ih =>
    intro i hfuel
    rw [flattenLoop]
    by_cases hlt : i < arr.length
    · rw [if_pos hlt]
      by_cases h2 : i + 2 < arr.length
      · have h1 : i + 1 < arr.length := by omega
        rw [List.getElem?_eq_getElem hlt, List.getElem?_eq_getElem h1,
          List.getElem?_eq_getElem h2]
        simp only [Option.some_bind, Option.isSome_map']
        rw [ih (i + 3) (by omega)]
        omega
      · by_cases h1 : i + 1 < arr.length
        · rw [List.getElem?_eq_getElem hlt, List.getElem?_eq_getElem h1,
            List.getElem?_eq_none (show arr.length ≤ i + 2 by omega)]
          simp only [Option.some_bind, Option.none_bind, Option.isSome_none,
            Bool.false_eq_true, false_iff]
          omega
        · rw [List.getElem?_eq_getElem hlt,
            List.getElem?_eq_none (show arr.length ≤ i + 1 by omega)]
          simp only [Option.some_bind, Option.none_bind, Option.isSome_none,
            Bool.false_eq_true, false_iff]
          omega
    · rw [if_neg hlt]
      simp only [Option.isSome_some, true_iff]
      omega

/-- `flattenChild` succeeds exactly on position buffers whose length is a
multiple of 3. -/
theorem flattenChild_isSome (arr : List ℚ) :
    (flattenChild arr).isSome ↔ arr.length % 3 = 0 := by
  rw [flattenChild, flattenLoop_isSome arr arr.length 0 (by omega)]
  omega

/-- `flattenPool` succeeds exactly when every child's position buffer has
length a multiple of 3. -/
theorem flattenPool_isSome (cs : List (List ℚ)) :
    (flattenPool cs).isSome ↔ ∀ a ∈ cs, a.length % 3 = 0 := by
  rw [flattenPool, Option.isSome_map', ← List.mapM'_eq_mapM]
  induction cs with
  | nil => simp [List.mapM']
  | cons a t ih =>
    rw [List.mapM']
    cases hfa : flattenChild a with
    | none =>
      have ha : ¬ a.length % 3 = 0 := by
        rw [← flattenChild_isSome, hfa]
        simp
      simp [hfa, ha]
    | some b =>
      have ha : a.length % 3 = 0 := by
        rw [← flattenChild_isSome, hfa]
        simp
      cases hft : t.mapM' flattenChild with
      | none =>
        rw [hft] at ih
        simp only [Option.isSome_none, Bool.false_eq_true, false_iff] at ih
        push_neg at ih
        obtain ⟨a2, ha2, ha2len⟩ := ih
        have : ¬ ∀ x ∈ a :: t, x.length % 3 = 0 := by
          intro hall
          exact ha2len (hall a2 (List.mem_cons_of_mem a ha2))
        simp [hfa, hft]
        exact fun _ => ⟨a2, ha2, ha2len⟩
      | some bs =>
        rw [hft] at ih
        simp only [Option.isSome_some, true_iff] at ih
        simp [hfa, hft, ha]
        exact ih

/-- The offsets loop succeeds exactly when it has nothing left to do or the
pool holds at least `instances` sample points. -/
theorem buildOffsetsLoop_isSome (pool : List Vec3) :
    ∀ fuel i instances, instances - i ≤ fuel →
      ((buildOffsetsLoop pool i instances).isSome ↔
        (instances ≤ i ∨ instances ≤ pool.length)) := by
  intro fuel
  induction fuel with
  | zero =>
    intro i instances hfuel
    rw [buildOffsetsLoop, if_neg (by omega)]
    simp only [Option.isSome_some, true_iff]
    omega
  | succ n ih =>
    intro i instances hfuel
    rw [buildOffsetsLoop]
    by_cases hlt : i < instances
    · rw [if_pos hlt]
      by_cases hp : i < pool.length
      · rw [List.getElem?_eq_getElem hp]
        simp only [Option.some_bind, Option.isSome_map']
        rw [ih (i + 1) instances (by omega)]
        omega
      · rw [List.getElem?_eq_none (by omega)]
        simp only [Option.none_bind, Option.isSome_none, Bool.false_eq_true,
          false_iff]
        omega
    · rw [if_neg hlt]
      simp only [Option.isSome_some, true_iff]
      omega

/-- Closed form of the offsets loop when the pool is large enough: it yields
the flattened `* 0.01`-scaled triples of the pool slice it walks. -/
theorem buildOffsetsLoop_eq (pool : List Vec3) :
    ∀ fuel i instances, instances - i ≤ fuel → instances ≤ pool.length →
      buildOffsetsLoop pool i instances =
        some ((((pool.drop i).take (instances - i)).map
          (fun p => [p.x * (1/100), p.y * (1/100), p.z * (1/100)])).flatten) := by
  intro fuel
  induction fuel with
  | zero =>
    intro i instances hfuel hlen
    rw [buildOffsetsLoop, if_neg (by omega)]
    rw [show instances - i = 0 by omega]
    simp
  | succ n ih =>
    intro i instances hfuel hlen
    rw [buildOffsetsLoop]
    by_cases hlt : i < instances
    · have hp : i < pool.length := by omega
      rw [if_pos hlt, List.getElem?_eq_getElem hp]
      simp only [Option.some_bind]
      rw [ih (i + 1) instances (by omega) hlen]
      simp only [Option.map_some']
      rw [List.drop_eq_getElem_cons hp]
      rw [show instances - i = (instances - (i + 1)) + 1 by omega]
      rw [List.take_succ_cons, List.map_cons, List.flatten_cons]
      rfl
    · rw [if_neg hlt]
      rw [show instances - i = 0 by omega]
      simp

/-- Indexing into the flattening of equal-length chunks: element `c*i + k`
(with `k < c`) of `(l.map g).flatten` is element `k` of chunk `i`. -/
theorem flatten_map_getElem? {α β : Type} (c : ℕ) (g : α → List β)
    (hg : ∀ a, (g a).length = c) :
    ∀ (l : List α) (i k : ℕ), k < c →
      ((l.map g).flatten)[c * i + k]? = l[i]?.bind fun a => (g a)[k]? := by
  intro l
  induction l with
  | nil =>
    intro i k hk
    simp
  | cons a t ih =>
    intro i k hk
    rw [List.map_cons, List.flatten_cons]
    cases i with
    | zero =>
      rw [Nat.mul_zero, Nat.zero_add]
      rw [List.getElem?_append_left (by rw [hg]; omega)]
      simp
    | succ m =>
      rw [Nat.mul_succ, show c * m + c + k = c + (c * m + k) by omega]
      rw [List.getElem?_append_right (by rw [hg]; omega)]
      rw [show c + (c * m + k) - (g a).length = c * m + k by rw [hg]; omega]
      rw [ih m k hk]
      simp

/-- Closed form of the colors loop: the flattened RGBA quadruples of
consecutive `Math.random()` results, four calls per instance. -/
theorem buildColorsLoop_eq (rnd : ℕ → ℚ) :
    ∀ fuel i instances, instances - i ≤ fuel →
      buildColorsLoop rnd i instances =
        ((List.range' i (instances - i)).map
          (fun j => [rnd (4*j), rnd (4*j + 1), rnd (4*j + 2), rnd (4*j + 3)])).flatten := by
  intro fuel
  induction fuel with
  | zero =>
    intro i instances hfuel
    rw [buildColorsLoop, if_neg (by omega), show instances - i = 0 by omega]
    simp
  | succ n ih =>
    intro i instances hfuel
    rw [buildColorsLoop]
    by_cases hlt : i < instances
    · rw [if_pos hlt, ih (i + 1) instances (by omega)]
      rw [show instances - i = (instances - (i + 1)) + 1 by omega, List.range'_succ]
      rw [List.map_cons, List.flatten_cons]
      rfl
    · rw [if_neg hlt, show instances - i = 0 by omega]
      simp

/-- Closed form of the orientations loop: the same normalized constant
quadruple repeated once per instance. -/
theorem buildOrientationsLoop_eq :
    ∀ fuel i instances, instances - i ≤ fuel →
      buildOrientationsLoop i instances =
        ((List.range' i (instances - i)).map
          (fun _ => [orientQuat.x, orientQuat.y, orientQuat.z, orientQuat.w])).flatten := by
  intro fuel
  induction fuel with
  | zero =>
    intro i instances hfuel
    rw [buildOrientationsLoop, if_neg (by omega), show instances - i = 0 by omega]
    simp
  | succ n ih =>
    intro i instances hfuel
    rw [buildOrientationsLoop]
    by_cases hlt : i < instances
    · rw [if_pos hlt, ih (i + 1) instances (by omega)]
      rw [show instances - i = (instances - (i + 1)) + 1 by omega, List.range'_succ]
      rw [List.map_cons, List.flatten_cons]
      rfl
    · rw [if_neg hlt, show instances - i = 0 by omega]
      simp

/-- C1: for every instance `i < n` of the built particle field (pool large
enough for the build to complete), each of the four color channels lies in
`[0, 1)`, and the instance's 3D offset is the `i`-th sample point of the
flattened pool scaled componentwise by `0.01`. -/
theorem particle_field_instance_attributes
    (pool : List Vec3) (n : ℕ) (rnd : ℕ → ℚ) (sp : List ℚ) (i : ℕ)
    (hr : ∀ k, 0 ≤ rnd k ∧ rnd k < 1) (hn : n ≤ pool.length) (hi : i < n) :
    ∃ mesh, objectInit pool n rnd sp = some mesh ∧
      (∀ k, k < 4 → ∃ c, mesh.colors[4 * i + k]? = some c ∧ 0 ≤ c ∧ c < 1) ∧
      ∃ p, pool[i]? = some p ∧
        mesh.offsets[3 * i]? = some (p.x * (1/100)) ∧
        mesh.offsets[3 * i + 1]? = some (p.y * (1/100)) ∧
        mesh.offsets[3 * i + 2]? = some (p.z * (1/100)) := by
  have hoffs := buildOffsetsLoop_eq pool n 0 n (by omega) hn
  rw [List.drop_zero, Nat.sub_zero] at hoffs
  have hip : i < pool.length := by omega
  refine ⟨⟨sp,
      ((pool.take n).map
        (fun p => [p.x * (1/100), p.y * (1/100), p.z * (1/100)])).flatten,
      buildColors rnd n, buildOrientations n, buildOrientations n, 1, 1⟩,
    ?_, ?_, ?_⟩
  · rw [objectInit, buildOffsets, hoffs]
    rfl
  · intro k hk
    show ∃ c, (buildColors rnd n)[4 * i + k]? = some c ∧ 0 ≤ c ∧ c < 1
    have hc := buildColorsLoop_eq rnd n 0 n (by omega)
    rw [Nat.sub_zero] at hc
    rw [buildColors, hc]
    rw [flatten_map_getElem? 4
      (fun j => [rnd (4*j), rnd (4*j + 1), rnd (4*j + 2), rnd (4*j + 3)])
      (fun j => rfl) (List.range' 0 n) i k hk]
    rw [List.getElem?_range' 0 1 hi]
    simp only [Option.some_bind]
    rw [show 0 + 1 * i = i by omega]
    interval_cases k
    · exact ⟨rnd (4 * i), by simp, (hr _).1, (hr _).2⟩
    · exact ⟨rnd (4 * i + 1), by simp, (hr _).1, (hr _).2⟩
    · exact ⟨rnd (4 * i + 2), by simp, (hr _).1, (hr _).2⟩
    · exact ⟨rnd (4 * i + 3), by simp, (hr _).1, (hr _).2⟩
  · refine ⟨pool[i], List.getElem?_eq_getElem hip, ?_, ?_, ?_⟩
    · show (((pool.take n).map
        (fun p => [p.x * (1/100), p.y * (1/100), p.z * (1/100)])).flatten)[3 * i]? =
          some (pool[i].x * (1/100))
      rw [show 3 * i = 3 * i + 0 by omega]
      rw [flatten_map_getElem? 3
        (fun p => [p.x * (1/100), p.y * (1/100), p.z * (1/100)])
        (fun p => rfl) (pool.take n) i 0 (by omega)]
      rw [List.getElem?_take, if_pos hi, List.getElem?_eq_getElem hip]
      simp
    · show (((pool.take n).map
        (fun p => [p.x * (1/100), p.y * (1/100), p.z * (1/100)])).flatten)[3 * i + 1]? =
          some (pool[i].y * (1/100))
      rw [flatten_map_getElem? 3
        (fun p => [p.x * (1/100), p.y * (1/100), p.z * (1/100)])
        (fun p => rfl) (pool.take n) i 1 (by omega)]
      rw [List.getElem?_take, if_pos hi, List.getElem?_eq_getElem hip]
      simp
    · show (((pool.take n).map
        (fun p => [p.x * (1/100), p.y * (1/100), p.z * (1/100)])).flatten)[3 * i + 2]? =
          some (pool[i].z * (1/100))
      rw [flatten_map_getElem? 3
        (fun p => [p.x * (1/100), p.y * (1/100), p.z * (1/100)])
        (fun p => rfl) (pool.take n) i 2 (by omega)]
      rw [List.getElem?_take, if_pos hi, List.getElem?_eq_getElem hip]
      simp

/-- Closed witness for `particle_field_instance_attributes` with a one-point
pool and the constant random stream `1/2`. -/
theorem particle_field_instance_attributes_check :
    ∃ mesh,
      objectInit [⟨1, 2, 3⟩] 1 (fun _ => 1/2) [] = some mesh ∧
      (∀ k, k < 4 → ∃ c, mesh.colors[4 * 0 + k]? = some c ∧ 0 ≤ c ∧ c < 1) ∧
      ∃ p, ([⟨1, 2, 3⟩] : List Vec3)[0]? = some p ∧
        mesh.offsets[3 * 0]? = some (p.x * (1/100)) ∧
        mesh.offsets[3 * 0 + 1]? = some (p.y * (1/100)) ∧
        mesh.offsets[3 * 0 + 2]? = some (p.z * (1/100)) :=
  particle_field_instance_attributes [⟨1, 2, 3⟩] 1 (fun _ => 1/2) [] 0
    (fun _ => ⟨by norm_num, by norm_num⟩) (by decide) (by decide)

/-- C2: invoking the particle-field builder with instance count `n` strictly
greater than the sample-pool size produces the defined out-of-range failure
(the pool indexing at `i ≥ pool.length` fails rather than yielding a value). -/
theorem particle_field_overflow_raises
    (pool : List Vec3) (n : ℕ) (rnd : ℕ → ℚ) (sp : List ℚ)
    (h : pool.length < n) :
    objectInit pool n rnd sp = none := by
  have hiff := buildOffsetsLoop_isSome pool n 0 n (by omega)
  have hnone : buildOffsetsLoop pool 0 n = none := by
    cases hb : buildOffsetsLoop pool 0 n with
    | none => rfl
    | some v =>
      rw [hb] at hiff
      simp only [Option.isSome_some, true_iff] at hiff
      omega
  rw [objectInit, buildOffsets, hnone]
  rfl

/-- Closed witness for `particle_field_overflow_raises`: an empty pool with
one requested instance. -/
theorem particle_field_overflow_raises_check :
    objectInit [] 1 (fun _ => 0) [] = none :=
  particle_field_overflow_raises [] 1 (fun _ => 0) [] (by decide)

/-- The constant vector `(.5,.5,.5,.5)` has squared length 1, so `1` is its
exact Euclidean length. -/
theorem orientVecRaw_lengthSq : (1 : ℚ) * 1 = vec4LengthSq orientVecRaw := by
  simp only [vec4LengthSq, orientVecRaw]
  norm_num

/-- Normalizing `(.5,.5,.5,.5)` returns it unchanged. -/
theorem orientQuat_eq : orientQuat = orientVecRaw := by
  simp only [orientQuat, vec4NormalizeOn, orientVecRaw]
  norm_num

/-- The written orientation quaternion is a unit quaternion. -/
theorem orientQuat_lengthSq : vec4LengthSq orientQuat = 1 := by
  rw [orientQuat_eq]
  simp only [vec4LengthSq, orientVecRaw]
  norm_num

/-- C8: every instance's start- and end-orientation quaternions are the same
constant, the normalization of `(0.5, 0.5, 0.5, 0.5)` — itself, a unit
quaternion — written at build time; the sphere variant's frame update leaves
all state (and so the orientation attributes) unmutated. -/
theorem orientation_quaternions_constant_unit
    (pool : List Vec3) (n : ℕ) (rnd : ℕ → ℚ) (sp : List ℚ) (i k : ℕ)
    (hn : n ≤ pool.length) (hi : i < n) (hk : k < 4) :
    ∃ mesh, objectInit pool n rnd sp = some mesh ∧
      mesh.orientationsStart = mesh.orientationsEnd ∧
      mesh.orientationsStart[4 * i + k]? = some (1/2) ∧
      mesh.orientationsEnd[4 * i + k]? = some (1/2) ∧
      orientQuat = vec4NormalizeOn orientVecRaw 1 ∧
      (1 : ℚ) * 1 = vec4LengthSq orientVecRaw ∧
      orientQuat = orientVecRaw ∧
      vec4LengthSq orientQuat = 1 ∧
      ∀ st : AppState, (sphereUpdate st).1 = st := by
  have hoffs := buildOffsetsLoop_eq pool n 0 n (by omega) hn
  rw [List.drop_zero, Nat.sub_zero] at hoffs
  have hor : (buildOrientations n)[4 * i + k]? = some (1/2) := by
    have ho := buildOrientationsLoop_eq n 0 n (by omega)
    rw [Nat.sub_zero] at ho
    rw [buildOrientations, ho]
    rw [flatten_map_getElem? 4
      (fun _ => [orientQuat.x, orientQuat.y, orientQuat.z, orientQuat.w])
      (fun _ => rfl) (List.range' 0 n) i k hk]
    rw [List.getElem?_range' 0 1 hi]
    simp only [Option.some_bind]
    interval_cases k <;> rw [orientQuat_eq] <;> simp [orientVecRaw]
  refine ⟨⟨sp,
      ((pool.take n).map
        (fun p => [p.x * (1/100), p.y * (1/100), p.z * (1/100)])).flatten,
      buildColors rnd n, buildOrientations n, buildOrientations n, 1, 1⟩,
    ?_, rfl, hor, hor, rfl, orientVecRaw_lengthSq, orientQuat_eq,
    orientQuat_lengthSq, fun st => rfl⟩
  rw [objectInit, buildOffsets, hoffs]
  rfl

/-- Closed witness for `orientation_quaternions_constant_unit` with a
one-point pool. -/
theorem orientation_quaternions_constant_unit_check :
    ∃ mesh,
      objectInit [⟨0, 0, 0⟩] 1 (fun _ => 0) [] = some mesh ∧
      mesh.orientationsStart = mesh.orientationsEnd ∧
      mesh.orientationsStart[4 * 0 + 0]? = some (1/2) ∧
      mesh.orientationsEnd[4 * 0 + 0]? = some (1/2) ∧
      orientQuat = vec4NormalizeOn orientVecRaw 1 ∧
      (1 : ℚ) * 1 = vec4LengthSq orientVecRaw ∧
      orientQuat = orientVecRaw ∧
      vec4LengthSq orientQuat = 1 ∧
      ∀ st : AppState, (sphereUpdate st).1 = st :=
  orientation_quaternions_constant_unit [⟨0, 0, 0⟩] 1 (fun _ => 0) [] 0 0
    (by decide) (by decide) (by decide)

/-- C10: the stride-3 flattening loop, guarded only on the first index of each
triple, performs all reads in bounds exactly when the position-array length is
divisible by 3 — so total safety of the flattening requires that every child's
position-array length be a multiple of 3. -/
theorem flatten_stride_guard_requires_divisibility
    (arr : List ℚ) (cs : List (List ℚ)) :
    ((flattenChild arr).isSome ↔ arr.length % 3 = 0) ∧
    ((flattenPool cs).isSome ↔ ∀ a ∈ cs, a.length % 3 = 0) :=
  ⟨flattenChild_isSome arr, flattenPool_isSome cs⟩
